import Mathlib

/-!
Verification development for a small eyelid-state classifier consisting of
two Python modules:

* `RealTime-FaceRecognition/eye_status.py` — model loading (`load_model`),
  single-image inference (`predict`: grayscale conversion, resize to
  `IMG_SIZE × IMG_SIZE`, division by 255, reshape to `[1,24,24,1]`, then a
  three-way threshold decision on the classifier score);
* `LivelinessNet_Notebook/ll_utils.py` — `load_image` (single-image loading:
  division by 255, `skimage.transform.resize` to `(24,24,1)`, batch axis),
  `load_data` (two `ImageDataGenerator.flow_from_directory` streams) and
  `save_model` (json structure + h5 weights).

Pixel samples are embedded as naturals (uint8 range is imposed by
hypothesis), tensor values as rationals.  Library calls are embedded by
their documented behaviour: PIL's `convert('L')` is the ITU-R 601-2 luma
transform, `scipy.misc.imresize` is PIL bilinear resampling (half-pixel
coordinate mapping, edge clamp) quantised back to uint8, and
`skimage.transform.resize` is order-1 (linear) interpolation with the
same coordinate mapping and constant-zero padding, appending singleton
axes when the requested output rank exceeds the input rank.
-/

namespace FaceRec

/-- Shared spatial size constant `IMG_SIZE = 24` from both modules. -/
def IMG_SIZE : ℕ := 24

/-- Decision tail of `eye_status.predict`: `if prediction < 0.1: 'closed'
elif prediction > 0.9: 'open' else: 'idk'`.  The classifier score is
embedded as a rational. -/
def decideLabel (p : ℚ) : String :=
  if p < 0.1 then "closed"
  else if 0.9 < p then "open"
  else "idk"

/-- A numpy array of uint8 samples: a shape together with a multi-index
pixel accessor (the accessor is total; only indices below the shape are
meaningful). -/
structure NpArray where
  shape : List ℕ
  px : List ℕ → ℕ

/-- A 4-dimensional float tensor: a shape together with a total accessor
indexed by (batch, row, column, channel). -/
structure Tensor4 where
  shape : List ℕ
  px : ℕ → ℕ → ℕ → ℕ → ℚ

/-- Failure modes of the two preprocessing paths: `decodeError` embeds an
unparseable input (PIL cannot open the file), `badShape` embeds the
errors raised by `Image.fromarray(img, 'RGB')` on arrays it cannot read
as a nonempty RGB image — "not enough image data" on rank-2 arrays and
on rank-3 arrays with fewer than 3 channels, "too many dimensions" on
rank ≥ 4, an index error on rank ≤ 1 — and `emptyImage` embeds the
error raised when resizing an image with a zero-sized axis. -/
inductive PrepErr where
  | decodeError
  | badShape
  | emptyImage
deriving DecidableEq

/-- Clamp an integer index into `[0, n-1]` (edge replication at borders,
as in PIL resampling). -/
def clampIdx (n : ℕ) (z : ℤ) : ℕ :=
  min z.toNat (n - 1)

/-- Linear interpolation of a sampled line `g` at coordinate `s`:
the convex combination of the two neighbouring samples weighted by the
fractional part of `s`. -/
def lerp1 (g : ℤ → ℚ) (s : ℚ) : ℚ :=
  (1 - Int.fract s) * g ⌊s⌋ + Int.fract s * g (⌊s⌋ + 1)

/-- Edge-clamped 2-D sample accessor. -/
def cget2 (h w : ℕ) (f : ℕ → ℕ → ℚ) (a b : ℤ) : ℚ :=
  f (clampIdx h a) (clampIdx w b)

/-- Zero-padded 3-D sample accessor (`mode='constant', cval=0`, the
default of the 2018-era `skimage.transform.resize`). -/
def zget3 (h w c : ℕ) (f : ℕ → ℕ → ℕ → ℚ) (a b d : ℤ) : ℚ :=
  if 0 ≤ a ∧ a < (h : ℤ) ∧ 0 ≤ b ∧ b < (w : ℤ) ∧ 0 ≤ d ∧ d < (c : ℤ) then
    f a.toNat b.toNat d.toNat
  else 0

/-- Bilinear interpolation of a 2-D image with edge clamp. -/
def bilerp (h w : ℕ) (f : ℕ → ℕ → ℚ) (y x : ℚ) : ℚ :=
  lerp1 (fun a => lerp1 (fun b => cget2 h w f a b) x) y

/-- Trilinear interpolation of a 3-D volume with zero padding. -/
def trilerp (h w c : ℕ) (f : ℕ → ℕ → ℕ → ℚ) (y x z : ℚ) : ℚ :=
  lerp1 (fun a => lerp1 (fun b => lerp1 (fun d => zget3 h w c f a b d) z) x) y

/-- Half-pixel source coordinate of output index `i` when an axis of
length `n` is resized to length `m`. -/
def srcCoord (n m : ℕ) (i : ℕ) : ℚ :=
  ((i : ℚ) + 1/2) * n / m - 1/2

/-- Round to nearest and clamp into the uint8 range, as happens when a
resampled image is materialised as a uint8 array. -/
def toUint8 (q : ℚ) : ℕ :=
  min 255 (⌊q + 1/2⌋).toNat

/-- ITU-R 601-2 luma transform used by PIL's `convert('L')`:
`L = R * 299/1000 + G * 587/1000 + B * 114/1000`. -/
def lum (r g b : ℕ) : ℕ :=
  (299 * r + 587 * g + 114 * b) / 1000

/-- One output pixel of `scipy.misc.imresize(gray, (IMG_SIZE, IMG_SIZE))`
applied to an `h × w` uint8 grayscale image: bilinear resampling followed
by uint8 quantisation. -/
def imresizePx (h w : ℕ) (g : ℕ → ℕ → ℕ) (i j : ℕ) : ℕ :=
  toUint8 (bilerp h w (fun a b => (g a b : ℚ))
    (srcCoord h IMG_SIZE i) (srcCoord w IMG_SIZE j))

/-- Byte at row-major offset `m` of a C-contiguous `(h, w, c)` uint8
array, as consumed by PIL's raw decoder after `tobytes()`. -/
def flatPx (w c : ℕ) (px : List ℕ → ℕ) (m : ℕ) : ℕ :=
  px [m / (w * c), m % (w * c) / c, m % c]

/-- Image-to-tensor part of `eye_status.predict`:
`Image.fromarray(img, 'RGB').convert('L')`, then
`imresize(img, (IMG_SIZE, IMG_SIZE)).astype('float32')`, `img /= 255`,
`img.reshape(1, IMG_SIZE, IMG_SIZE, 1)`.  `fromarray` with the explicit
mode `'RGB'` rejects rank ≥ 4 arrays ("too many dimensions") and rank ≤ 1
arrays outright; on rank-2 and on rank-3 arrays with fewer than 3
channels the raw decoder fails with "not enough image data" unless the
image is empty (zero bytes needed); a rank-3 array with more than 3
channels is accepted, its leading `3·h·w` bytes silently reinterpreted
as packed RGB triples (for exactly 3 channels this reinterpretation is
the identity).  A zero-sized axis survives `fromarray` and fails at the
resize. -/
def predictPrep (a : NpArray) : Except PrepErr Tensor4 :=
  match a.shape with
  | [h, w] =>
    if h = 0 ∨ w = 0 then .error .emptyImage else .error .badShape
  | [h, w, 0] =>
    if h = 0 ∨ w = 0 then .error .emptyImage else .error .badShape
  | [h, w, 1] =>
    if h = 0 ∨ w = 0 then .error .emptyImage else .error .badShape
  | [h, w, 2] =>
    if h = 0 ∨ w = 0 then .error .emptyImage else .error .badShape
  | [h, w, 3] =>
    if h = 0 ∨ w = 0 then .error .emptyImage
    else
      .ok { shape := [1, IMG_SIZE, IMG_SIZE, 1],
            px := fun _ i j _ =>
              (imresizePx h w
                (fun r c => lum (a.px [r, c, 0]) (a.px [r, c, 1]) (a.px [r, c, 2]))
                i j : ℚ) / 255 }
  | [h, w, c + 4] =>
    if h = 0 ∨ w = 0 then .error .emptyImage
    else
      .ok { shape := [1, IMG_SIZE, IMG_SIZE, 1],
            px := fun _ i j _ =>
              (imresizePx h w
                (fun r cc => lum (flatPx w (c + 4) a.px (3 * (r * w + cc)))
                  (flatPx w (c + 4) a.px (3 * (r * w + cc) + 1))
                  (flatPx w (c + 4) a.px (3 * (r * w + cc) + 2)))
                i j : ℚ) / 255 }
  | _ => .error .badShape

/-- Whole `eye_status.predict`: preprocessing, the opaque classifier
score, then the threshold decision. -/
def predict (a : NpArray) (model : Tensor4 → ℚ) : Except PrepErr String :=
  (predictPrep a).map (fun t => decideLabel (model t))

/-- Embedding of `skimage.transform.resize(vol, (IMG_SIZE, IMG_SIZE, 1))`
on an `h × w × c` float volume followed by `np.expand_dims(·, axis=0)`:
errors on a zero-sized axis, otherwise trilinear interpolation with the
half-pixel coordinate mapping. -/
def skResize (h w c : ℕ) (f : ℕ → ℕ → ℕ → ℚ) : Except PrepErr Tensor4 :=
  if h = 0 ∨ w = 0 ∨ c = 0 then .error .emptyImage
  else
    .ok { shape := [1, IMG_SIZE, IMG_SIZE, 1],
          px := fun _ i j k =>
            trilerp h w c f
              (srcCoord h IMG_SIZE i) (srcCoord w IMG_SIZE j) (srcCoord c 1 k) }

/-- `ll_utils.load_image`: `Image.open` (a `none` input embeds an
unparseable file), `np.array(...).astype('float32') / 255` — note the
division by 255 happens first — then
`transform.resize(np_image, (IMG_SIZE, IMG_SIZE, 1))` (a rank-2 array
gets a singleton channel axis appended; a rank-3 array has its channel
axis interpolated down to 1) and `np.expand_dims(np_image, axis=0)`. -/
def load_image (file : Option NpArray) : Except PrepErr Tensor4 :=
  match file with
  | none => .error .decodeError
  | some a =>
    match a.shape with
    | [h, w] => skResize h w 1 (fun i j _ => (a.px [i, j] : ℚ) / 255)
    | [h, w, c] => skResize h w c (fun i j k => (a.px [i, j, k] : ℚ) / 255)
    | _ => .error .decodeError

/-- Single-channel grayscale image with natural (uint8) samples. -/
structure GrayImg where
  h : ℕ
  w : ℕ
  px : ℕ → ℕ → ℕ

/-- Step 1 of the specified preprocessing order: convert to
single-channel grayscale, by the luma transform when the source has
multiple channels. -/
def stepGray (a : NpArray) : Except PrepErr GrayImg :=
  match a.shape with
  | [h, w] => .ok ⟨h, w, fun i j => a.px [i, j]⟩
  | [h, w, 3] =>
    .ok ⟨h, w, fun i j => lum (a.px [i, j, 0]) (a.px [i, j, 1]) (a.px [i, j, 2])⟩
  | _ => .error .badShape

/-- Step 2 of the specified order: interpolated resize to exactly
`IMG_SIZE × IMG_SIZE` integer samples. -/
def stepResize (g : GrayImg) : Except PrepErr (ℕ → ℕ → ℕ) :=
  if g.h = 0 ∨ g.w = 0 then .error .emptyImage
  else .ok (fun i j => imresizePx g.h g.w g.px i j)

/-- Step 3 of the specified order: normalise integer samples to `[0,1]`
by dividing by 255. -/
def stepNormalize (g : ℕ → ℕ → ℕ) : ℕ → ℕ → ℚ :=
  fun i j => (g i j : ℚ) / 255

/-- Step 4 of the specified order: reshape to `[1, 24, 24, 1]`. -/
def stepReshape (g : ℕ → ℕ → ℚ) : Tensor4 :=
  { shape := [1, IMG_SIZE, IMG_SIZE, 1], px := fun _ i j _ => g i j }

/-- The single-image preprocessing as the spec words it: grayscale, then
resize, then divide by 255, then reshape, in that order. -/
def specPrepare (a : NpArray) : Except PrepErr Tensor4 :=
  (stepGray a).bind fun g =>
    (stepResize g).map fun r => stepReshape (stepNormalize r)

/-- Value of a preprocessing result at tensor index `(0,0,0,0)`. -/
def px0 (e : Except PrepErr Tensor4) : Option ℚ :=
  match e with
  | .ok t => some (t.px 0 0 0 0)
  | .error _ => none

/-- A 24 × 24 pure-red RGB array: channel 0 is 255, channels 1 and 2
are 0. -/
def red24 : NpArray :=
  { shape := [24, 24, 3], px := fun ix => if ix.getD 2 0 = 0 then 255 else 0 }

/-- A 24 × 24 RGB array constant at gray value `v` in every channel. -/
def constRGB (v : ℕ) : NpArray :=
  { shape := [24, 24, 3], px := fun _ => v }

/-- A 24 × 24 single-channel (grayscale) array constant at 5. -/
def gray24 : NpArray :=
  { shape := [24, 24], px := fun _ => 5 }

/-- A small 2 × 2 × 3 RGB array constant at 9, used as a witness input. -/
def rgbSmall : NpArray :=
  { shape := [2, 2, 3], px := fun _ => 9 }

/-- A small 3 × 5 grayscale array constant at 10, used as a witness
input. -/
def graySmall : NpArray :=
  { shape := [3, 5], px := fun _ => 10 }

/-- `color_mode` argument of `flow_from_directory`. -/
inductive ColorMode where
  | grayscale
  | rgb
deriving DecidableEq

/-- `class_mode` argument of `flow_from_directory`. -/
inductive ClassMode where
  | binary
  | categorical
deriving DecidableEq

/-- Configuration fields of `keras.preprocessing.image.ImageDataGenerator`
that `ll_utils.load_data` sets. -/
structure ImageDataGenerator where
  rescale : Option ℚ
  shear_range : ℚ
  horizontal_flip : Bool
deriving DecidableEq

/-- Configuration of one `flow_from_directory` stream: the generator it
was built from plus the keyword arguments passed at the call site. -/
structure DirectoryIterator where
  gen : ImageDataGenerator
  directory : String
  target_size : ℕ × ℕ
  color_mode : ColorMode
  batch_size : ℕ
  class_mode : ClassMode
  shuffle : Bool
  seed : Option ℕ
deriving DecidableEq

/-- `ll_utils.load_data`: two `ImageDataGenerator`s with
`rescale=1./255, shear_range=0.2, horizontal_flip=True`, flowed from
`dataset/train` and `dataset/val` with
`target_size=(IMG_SIZE, IMG_SIZE), color_mode="grayscale",
batch_size=32, class_mode="binary", shuffle=True, seed=42`. -/
def load_data : DirectoryIterator × DirectoryIterator :=
  let train_datagen : ImageDataGenerator :=
    { rescale := some (1/255), shear_range := 0.2, horizontal_flip := true }
  let val_datagen : ImageDataGenerator :=
    { rescale := some (1/255), shear_range := 0.2, horizontal_flip := true }
  ({ gen := train_datagen
     directory := "dataset/train"
     target_size := (IMG_SIZE, IMG_SIZE)
     color_mode := .grayscale
     batch_size := 32
     class_mode := .binary
     shuffle := true
     seed := some 42 },
   { gen := val_datagen
     directory := "dataset/val"
     target_size := (IMG_SIZE, IMG_SIZE)
     color_mode := .grayscale
     batch_size := 32
     class_mode := .binary
     shuffle := true
     seed := some 42 })

/-- Keras `get_random_transform` draws the shear intensity as
`np.random.uniform(-shear_range, shear_range)`; a uniform draw
`r ∈ [0,1]` is mapped affinely onto that interval. -/
def sampleShear (g : ImageDataGenerator) (r : ℚ) : ℚ :=
  -g.shear_range + 2 * g.shear_range * r

/-- Application of the generator's `rescale` factor to a uint8 sample, as
keras does (`x *= rescale` when `rescale` is set). -/
def rescaleApply (g : ImageDataGenerator) (v : ℕ) : ℚ :=
  match g.rescale with
  | some r => r * (v : ℚ)
  | none => (v : ℚ)

/-- Label assigned by `flow_from_directory` with `class_mode="binary"`:
the index of the image's class directory in the sorted list of class
directory names. -/
def binaryLabel (classes : List String) (c : String) : ℕ :=
  (classes.insertionSort (· ≤ ·)).findIdx (fun s => s == c)

/-- One step of a linear congruential generator, standing in for the
numpy Mersenne Twister as a concrete deterministic pseudo-random
source. -/
def lcgStep (x : ℕ) : ℕ :=
  (1664525 * x + 1013904223) % 4294967296

/-- Fisher-Yates shuffle driven by `lcgStep`, with an explicit fuel
argument equal to the list length. -/
def shuffleAux {α : Type} : ℕ → ℕ → List α → List α
  | 0, _, xs => xs
  | Nat.succ n, st, xs =>
    if h : xs.length = 0 then xs
    else
      let i := st % xs.length
      have hi : i < xs.length := Nat.mod_lt _ (Nat.pos_of_ne_zero h)
      xs.get ⟨i, hi⟩ :: shuffleAux n (lcgStep st) (xs.eraseIdx i)

/-- Deterministic permutation of a list obtained from a seed. -/
def permute {α : Type} (s : ℕ) (xs : List α) : List α :=
  shuffleAux xs.length (lcgStep s) xs

/-- Order of the samples served in epoch `epoch` of a
`flow_from_directory` stream.  Keras reseeds numpy with
`seed + total_batches_seen` before each permutation when `seed` is not
`None`; with `seed=None` the permutation comes from the ambient global
RNG state, embedded here as `ambient`. -/
def epochFiles {α : Type} (it : DirectoryIterator) (ambient : ℕ)
    (files : List α) (epoch : ℕ) : List α :=
  if it.shuffle then
    match it.seed with
    | some s => permute (s + epoch) files
    | none => permute (ambient + epoch) files
  else files

/-- Batch number `b` of epoch `epoch` of a stream: a `batch_size` slice
of the epoch's sample order.  `files` may carry (image, label) pairs. -/
def streamBatch {α : Type} (it : DirectoryIterator) (ambient : ℕ)
    (files : List α) (epoch b : ℕ) : List α :=
  ((epochFiles it ambient files epoch).drop (b * it.batch_size)).take it.batch_size

/-- A keras model as persisted by the two artifacts: the architecture
description (a list of layer widths) and the flat weight list. -/
structure KModel where
  arch : List ℕ
  weights : List ℚ
deriving DecidableEq

/-- `model.to_json()`: a self-describing serialization of the
architecture (independent of the weights), embedded as a length-prefixed
encoding. -/
def to_json (arch : List ℕ) : List ℕ :=
  arch.length :: arch

/-- `keras.models.model_from_json`: decodes the structure artifact,
failing on a malformed or truncated encoding. -/
def model_from_json : List ℕ → Option (List ℕ)
  | [] => none
  | n :: rest => if rest.length = n then some rest else none

/-- Number of scalar parameters a dense chain with the given layer
widths requires (`a × b` kernel entries plus `b` biases per consecutive
pair). -/
def totalParams : List ℕ → ℕ
  | a :: b :: rest => a * b + b + totalParams (b :: rest)
  | _ => 0

/-- The two files written by `ll_utils.save_model` / read by
`eye_status.load_model`; `none` embeds a missing file. -/
structure Artifacts where
  json : Option (List ℕ)
  h5 : Option (List ℚ)
deriving DecidableEq

/-- Failure mode of model loading: any missing, truncated or
shape-mismatched artifact surfaces as this single error (the spec's
`CorruptArtifactError`, abstracting the `IOError` of `open`, the parse
error of `model_from_json` and the `ValueError` of `load_weights`). -/
inductive LoadErr where
  | corruptArtifact
deriving DecidableEq

/-- `ll_utils.save_model`: writes `model.to_json()` to `model.json` and
the weights to `model.h5`. -/
def save_model (m : KModel) : Artifacts :=
  { json := some (to_json m.arch), h5 := some m.weights }

/-- `eye_status.load_model`: reads `model.json`, rebuilds the
architecture with `model_from_json`, then loads the weights from
`model.h5`, which must match the declared structure. -/
def load_model (ar : Artifacts) : Except LoadErr KModel :=
  match ar.json with
  | none => .error .corruptArtifact
  | some j =>
    match model_from_json j with
    | none => .error .corruptArtifact
    | some arch =>
      match ar.h5 with
      | none => .error .corruptArtifact
      | some w =>
        if w.length = totalParams arch then .ok { arch := arch, weights := w }
        else .error .corruptArtifact

/-- A model is well formed when its weight list has exactly the length
its architecture declares. -/
def wfModel (m : KModel) : Prop :=
  m.weights.length = totalParams m.arch

/-- Artifacts are well formed when both files are present, the structure
file decodes, and the weight blob matches the declared structure. -/
def wfArtifacts (ar : Artifacts) : Prop :=
  ∃ j arch w, ar.json = some j ∧ model_from_json j = some arch ∧
    ar.h5 = some w ∧ w.length = totalParams arch

/-- Rectified linear unit. -/
def relu (q : ℚ) : ℚ := max q 0

/-- Dot product of two rational vectors. -/
def dotProd : List ℚ → List ℚ → ℚ
  | a :: as, b :: bs => a * b + dotProd as bs
  | _, _ => 0

/-- Dense kernel application: `rows` output entries, each the dot product
of a `cols`-long slice of the flat kernel with the input vector. -/
def matVec (w : List ℚ) (rows cols : ℕ) (v : List ℚ) : List ℚ :=
  (List.range rows).map (fun i => dotProd ((w.drop (i * cols)).take cols) v)

/-- Modelled from the spec: the network architecture itself lives in the
training notebook, which is not among the sources; the spec treats the
classifier as an opaque trainable function of the weights.  It is
instantiated here as a chain of dense layers with ReLU activations read
off the persisted architecture and weights. -/
def chainEval : List ℕ → List ℚ → List ℚ → List ℚ
  | a :: b :: rest, w, v =>
    let lw := (w.take (a * b + b))
    let out := ((matVec (lw.take (a * b)) b a v).zipWith (· + ·)
      (lw.drop (a * b))).map relu
    chainEval (b :: rest) (w.drop (a * b + b)) out
  | _, _, v => v

/-- Scalar prediction of a persisted model on a flattened input tensor:
the first entry of the final layer's output. -/
def predictProb (m : KModel) (v : List ℚ) : ℚ :=
  (chainEval m.arch m.weights v).headD 0

/-- A small well-formed model used as a witness input. -/
def mEx : KModel :=
  { arch := [2, 1], weights := [1, 2, 3] }

/-! ### Interpolation lemmas -/

theorem lerp1_bounds (g : ℤ → ℚ) (s lo hi : ℚ)
    (hg : ∀ z, lo ≤ g z ∧ g z ≤ hi) : lo ≤ lerp1 g s ∧ lerp1 g s ≤ hi := by
  have ht0 := Int.fract_nonneg s
  have ht1 : Int.fract s ≤ 1 := le_of_lt (Int.fract_lt_one s)
  obtain ⟨ha1, ha2⟩ := hg ⌊s⌋
  obtain ⟨hb1, hb2⟩ := hg (⌊s⌋ + 1)
  unfold lerp1
  constructor <;> nlinarith

theorem lerp1_const (q s : ℚ) : lerp1 (fun _ => q) s = q := by
  unfold lerp1; ring

theorem lerp1_natCast (g : ℤ → ℚ) (n : ℕ) : lerp1 g (n : ℚ) = g n := by
  unfold lerp1
  rw [show ((n : ℚ)) = (((n : ℤ) : ℚ)) by push_cast; ring]
  rw [Int.fract_intCast, Int.floor_intCast]
  ring

theorem srcCoord_self (n : ℕ) (hn : n ≠ 0) (i : ℕ) : srcCoord n n i = (i : ℚ) := by
  unfold srcCoord
  have h : (n : ℚ) ≠ 0 := Nat.cast_ne_zero.2 hn
  field_simp
  ring

theorem srcCoord31 : srcCoord 3 1 0 = ((1 : ℕ) : ℚ) := by
  unfold srcCoord; norm_num

theorem floor_half : ⌊(1/2 : ℚ)⌋ = 0 := by
  rw [Int.floor_eq_zero_iff]; constructor <;> norm_num

theorem toUint8_natCast (v : ℕ) (hv : v ≤ 255) : toUint8 (v : ℚ) = v := by
  unfold toUint8
  rw [show ((v : ℚ) + 1/2) = (((v : ℤ) : ℚ) + 1/2) by push_cast; ring]
  rw [Int.floor_int_add, floor_half, add_zero, Int.toNat_natCast]
  omega

theorem toUint8_le (q : ℚ) : toUint8 q ≤ 255 := Nat.min_le_left _ _

theorem clampIdx_natCast (n i : ℕ) (hi : i < n) : clampIdx n (i : ℤ) = i := by
  unfold clampIdx
  rw [Int.toNat_natCast]
  omega

theorem zget3_natCast (h w c : ℕ) (f : ℕ → ℕ → ℕ → ℚ) (a b d : ℕ)
    (ha : a < h) (hb : b < w) (hd : d < c) :
    zget3 h w c f (a : ℤ) (b : ℤ) (d : ℤ) = f a b d := by
  unfold zget3
  rw [if_pos]
  · simp [Int.toNat_natCast]
  · refine ⟨by positivity, ?_, by positivity, ?_, by positivity, ?_⟩ <;> exact_mod_cast ‹_›

theorem bilerp_const (h w : ℕ) (q y x : ℚ) :
    bilerp h w (fun _ _ => q) y x = q := by
  unfold bilerp cget2
  simp [lerp1_const]

theorem trilerp_bounds01 (h w c : ℕ) (f : ℕ → ℕ → ℕ → ℚ)
    (hf : ∀ i j k, 0 ≤ f i j k ∧ f i j k ≤ 1) (y x z : ℚ) :
    0 ≤ trilerp h w c f y x z ∧ trilerp h w c f y x z ≤ 1 := by
  unfold trilerp
  apply lerp1_bounds
  intro a
  apply lerp1_bounds
  intro b
  apply lerp1_bounds
  intro d
  unfold zget3
  split
  · exact hf _ _ _
  · norm_num

theorem trilerp_natCast (h w c : ℕ) (f : ℕ → ℕ → ℕ → ℚ) (i j k : ℕ)
    (hi : i < h) (hj : j < w) (hk : k < c) :
    trilerp h w c f (i : ℚ) (j : ℚ) (k : ℚ) = f i j k := by
  unfold trilerp
  simp only [lerp1_natCast]
  exact zget3_natCast h w c f i j k hi hj hk

/-! ### Reduction lemmas for the two preprocessing paths -/

theorem predictPrep_eq3 (h w : ℕ) (px : List ℕ → ℕ) :
    predictPrep ⟨[h, w, 3], px⟩ =
      if h = 0 ∨ w = 0 then .error .emptyImage
      else .ok { shape := [1, IMG_SIZE, IMG_SIZE, 1],
                 px := fun _ i j _ =>
                   (imresizePx h w
                     (fun r c => lum (px [r, c, 0]) (px [r, c, 1]) (px [r, c, 2]))
                     i j : ℚ) / 255 } := rfl

theorem predictPrep_eq2 (h w : ℕ) (px : List ℕ → ℕ) :
    predictPrep ⟨[h, w], px⟩ =
      if h = 0 ∨ w = 0 then .error .emptyImage else .error .badShape := rfl

theorem predictPrep_lowc (h w c : ℕ) (hc : c < 3) (px : List ℕ → ℕ) :
    predictPrep ⟨[h, w, c], px⟩ =
      if h = 0 ∨ w = 0 then .error .emptyImage else .error .badShape := by
  rcases c with _ | _ | _ | n
  · rfl
  · rfl
  · rfl
  · omega

theorem predictPrep_eqc4 (h w c : ℕ) (px : List ℕ → ℕ) :
    predictPrep ⟨[h, w, c + 4], px⟩ =
      if h = 0 ∨ w = 0 then .error .emptyImage
      else .ok { shape := [1, IMG_SIZE, IMG_SIZE, 1],
                 px := fun _ i j _ =>
                   (imresizePx h w
                     (fun r cc => lum (flatPx w (c + 4) px (3 * (r * w + cc)))
                       (flatPx w (c + 4) px (3 * (r * w + cc) + 1))
                       (flatPx w (c + 4) px (3 * (r * w + cc) + 2)))
                     i j : ℚ) / 255 } := rfl

theorem predictPrep_eq4 (h w c d : ℕ) (r : List ℕ) (px : List ℕ → ℕ) :
    predictPrep ⟨h :: w :: c :: d :: r, px⟩ = .error .badShape := by
  rcases c with _ | _ | _ | _ | n <;> rfl

theorem load_image_eq2 (h w : ℕ) (px : List ℕ → ℕ) :
    load_image (some ⟨[h, w], px⟩) =
      skResize h w 1 (fun i j _ => (px [i, j] : ℚ) / 255) := rfl

theorem load_image_eq3 (h w c : ℕ) (px : List ℕ → ℕ) :
    load_image (some ⟨[h, w, c], px⟩) =
      skResize h w c (fun i j k => (px [i, j, k] : ℚ) / 255) := rfl

theorem lum_diag (v : ℕ) : lum v v v = v := by
  unfold lum
  rw [show 299 * v + 587 * v + 114 * v = 1000 * v by ring]
  exact Nat.mul_div_cancel_left v (by norm_num)

theorem imresizePx_le (h w : ℕ) (g : ℕ → ℕ → ℕ) (i j : ℕ) :
    imresizePx h w g i j ≤ 255 :=
  toUint8_le _

theorem imresizePx_const (h w v i j : ℕ) (hv : v ≤ 255) :
    imresizePx h w (fun _ _ => v) i j = v := by
  unfold imresizePx
  rw [show (fun a b => (((fun _ _ : ℕ => v) a b : ℕ) : ℚ)) = fun _ _ : ℕ => ((v : ℕ) : ℚ)
    from rfl]
  rw [bilerp_const, toUint8_natCast v hv]

theorem predictPrep_constPx (h w v : ℕ) (hv : v ≤ 255) (hhw : ¬(h = 0 ∨ w = 0))
    (px : List ℕ → ℕ)
    (hl : ∀ r c, lum (px [r, c, 0]) (px [r, c, 1]) (px [r, c, 2]) = v) :
    predictPrep ⟨[h, w, 3], px⟩ =
      .ok { shape := [1, IMG_SIZE, IMG_SIZE, 1],
            px := fun _ _ _ _ => (v : ℚ) / 255 } := by
  rw [predictPrep_eq3, if_neg hhw]
  have hg : (fun r c => lum (px [r, c, 0]) (px [r, c, 1]) (px [r, c, 2]))
      = fun _ _ : ℕ => v := funext fun r => funext fun c => hl r c
  rw [hg]
  have hpx : (fun (_ i j _ : ℕ) => ((imresizePx h w (fun _ _ : ℕ => v) i j : ℕ) : ℚ) / 255)
      = fun _ _ _ _ : ℕ => ((v : ℕ) : ℚ) / 255 := by
    funext b i j k
    rw [imresizePx_const h w v i j hv]
  rw [hpx]

theorem predictPrep_specOrder (h w : ℕ) (px : List ℕ → ℕ) :
    predictPrep ⟨[h, w, 3], px⟩ = specPrepare ⟨[h, w, 3], px⟩ := by
  unfold specPrepare
  simp only [stepGray, stepResize, stepNormalize, stepReshape, predictPrep_eq3,
    Except.bind]
  split_ifs with hP <;> rfl

theorem predictPrep_red24 :
    predictPrep red24 = .ok { shape := [1, IMG_SIZE, IMG_SIZE, 1],
                              px := fun _ _ _ _ => ((76 : ℕ) : ℚ) / 255 } :=
  predictPrep_constPx 24 24 76 (by norm_num) (by norm_num) red24.px
    (fun r c => by simp [red24, lum])

theorem load_red24_px0 : px0 (load_image (some red24)) = some 0 := by
  rw [show red24 = (⟨[24, 24, 3], red24.px⟩ : NpArray) from rfl, load_image_eq3]
  unfold skResize
  rw [if_neg (by norm_num)]
  unfold px0
  simp only [IMG_SIZE]
  rw [srcCoord_self 24 (by norm_num) 0, srcCoord31,
    trilerp_natCast 24 24 3 _ 0 0 1 (by norm_num) (by norm_num) (by norm_num)]
  norm_num [red24]

theorem px0_spec_red24 : px0 (specPrepare red24) = some (((76 : ℕ) : ℚ) / 255) := by
  have h : specPrepare red24 = predictPrep red24 :=
    (predictPrep_specOrder 24 24 red24.px).symm
  rw [h, predictPrep_red24]
  rfl

theorem pred_ne_load_red24 : predictPrep red24 ≠ load_image (some red24) := by
  intro hEq
  have h1 : px0 (predictPrep red24) = some (((76 : ℕ) : ℚ) / 255) := by
    rw [predictPrep_red24]; rfl
  rw [hEq, load_red24_px0] at h1
  have h2 := Option.some.inj h1
  norm_num at h2

theorem spec_ne_load_red24 : load_image (some red24) ≠ specPrepare red24 := by
  have hs : specPrepare red24 = predictPrep red24 :=
    (predictPrep_specOrder 24 24 red24.px).symm
  rw [hs]
  exact fun hEq => pred_ne_load_red24 hEq.symm

theorem load_constPx (v : ℕ) :
    ∃ t, load_image (some (constRGB v)) = .ok t ∧
      ∀ i j, i < 24 → j < 24 → t.px 0 i j 0 = (v : ℚ) / 255 := by
  rw [show constRGB v = (⟨[24, 24, 3], fun _ => v⟩ : NpArray) from rfl, load_image_eq3]
  unfold skResize
  rw [if_neg (by norm_num)]
  refine ⟨_, rfl, ?_⟩
  intro i j hi hj
  simp only [IMG_SIZE]
  rw [srcCoord_self 24 (by norm_num) i, srcCoord_self 24 (by norm_num) j, srcCoord31,
    trilerp_natCast 24 24 3 _ i j 1 hi hj (by norm_num)]

theorem shape_range_predict (h w : ℕ) (px : List ℕ → ℕ) (hh : h ≠ 0) (hw : w ≠ 0) :
    ∃ t, predictPrep ⟨[h, w, 3], px⟩ = .ok t ∧ t.shape = [1, 24, 24, 1] ∧
      ∀ b i j k, 0 ≤ t.px b i j k ∧ t.px b i j k ≤ 1 := by
  rw [predictPrep_eq3, if_neg (by omega)]
  refine ⟨_, rfl, rfl, ?_⟩
  intro b i j k
  constructor
  · positivity
  · rw [div_le_one (by norm_num)]
    exact_mod_cast imresizePx_le h w _ i j

theorem skResize_range (h w c : ℕ) (f : ℕ → ℕ → ℕ → ℚ)
    (hne : ¬(h = 0 ∨ w = 0 ∨ c = 0)) (hf : ∀ i j k, 0 ≤ f i j k ∧ f i j k ≤ 1) :
    ∃ t, skResize h w c f = .ok t ∧ t.shape = [1, 24, 24, 1] ∧
      ∀ b i j k, 0 ≤ t.px b i j k ∧ t.px b i j k ≤ 1 := by
  unfold skResize
  rw [if_neg hne]
  refine ⟨_, rfl, rfl, ?_⟩
  intro b i j k
  exact trilerp_bounds01 h w c f hf _ _ _

theorem div255_range (n : ℕ) (hn : n ≤ 255) :
    0 ≤ ((n : ℕ) : ℚ) / 255 ∧ ((n : ℕ) : ℚ) / 255 ≤ 1 := by
  constructor
  · positivity
  · rw [div_le_one (by norm_num)]
    exact_mod_cast hn

/-! ### Loader and persistence lemmas -/

theorem sampleShear_bound (r : ℚ) (h0 : 0 ≤ r) (h1 : r ≤ 1) :
    |sampleShear load_data.1.gen r| ≤ 0.2 := by
  have hs : load_data.1.gen.shear_range = 0.2 := rfl
  unfold sampleShear
  rw [hs, abs_le]
  constructor <;> nlinarith

theorem rescaleApply_range (v : ℕ) (hv : v ≤ 255) :
    0 ≤ rescaleApply load_data.1.gen v ∧ rescaleApply load_data.1.gen v ≤ 1 := by
  show 0 ≤ (1/255 : ℚ) * (v : ℚ) ∧ (1/255 : ℚ) * (v : ℚ) ≤ 1
  have h255 : ((v : ℕ) : ℚ) ≤ 255 := by exact_mod_cast hv
  constructor
  · positivity
  · nlinarith

theorem binaryLabel_lt_two (classes : List String) (c : String)
    (hlen : classes.length = 2) (hc : c ∈ classes) :
    binaryLabel classes c < 2 := by
  unfold binaryLabel
  have h1 : (classes.insertionSort (· ≤ ·)).length = 2 := by
    rw [List.length_insertionSort]; exact hlen
  have h2 : c ∈ classes.insertionSort (· ≤ ·) := (List.mem_insertionSort (· ≤ ·)).2 hc
  have h3 := List.findIdx_lt_length_of_exists (p := fun s => s == c) ⟨c, h2, by simp⟩
  omega

theorem model_roundtrip_aux (m : KModel) (hm : wfModel m) :
    load_model (save_model m) = .ok m := by
  obtain ⟨arch, w⟩ := m
  have hm2 : w.length = totalParams arch := hm
  simp [load_model, save_model, to_json, model_from_json, hm2]

theorem load_model_ok_iff (ar : Artifacts) :
    (∃ m, load_model ar = .ok m) ↔ wfArtifacts ar := by
  obtain ⟨oj, ow⟩ := ar
  cases oj with
  | none => simp [load_model, wfArtifacts]
  | some j =>
    rcases hj : model_from_json j with _ | arch
    · simp [load_model, hj, wfArtifacts]
    · cases ow with
      | none => simp [load_model, hj, wfArtifacts]
      | some w =>
        by_cases hw : w.length = totalParams arch
        · simp [load_model, hj, wfArtifacts, hw]
        · simp [load_model, hj, wfArtifacts, hw]

theorem load_model_fails (ar : Artifacts) (hn : ¬ wfArtifacts ar) :
    load_model ar = .error .corruptArtifact := by
  rcases he : load_model ar with e | m
  · cases e
    rfl
  · exact absurd ((load_model_ok_iff ar).1 ⟨m, he⟩) hn

/-! ### Claim theorems -/

/-- C1: for every probability `p`, the decision tail of `predict` returns
exactly one of the three labels, with `"closed"` iff `p < 0.1`, `"open"`
iff `p > 0.9`, `"idk"` otherwise, and in particular `"idk"` at the two
boundary values `0.1` and `0.9`. -/
theorem decision_policy_thresholds (p : ℚ) :
    (decideLabel p = "closed" ↔ p < 0.1)
  ∧ (decideLabel p = "open" ↔ 0.9 < p)
  ∧ (decideLabel p = "idk" ↔ 0.1 ≤ p ∧ p ≤ 0.9)
  ∧ (decideLabel p = "closed" ∨ decideLabel p = "open" ∨ decideLabel p = "idk")
  ∧ decideLabel 0.1 = "idk" ∧ decideLabel 0.9 = "idk" := by
  have hb : decideLabel 0.1 = "idk" ∧ decideLabel 0.9 = "idk" := by
    unfold decideLabel; norm_num
  refine ⟨?_, ?_, ?_, ?_, hb.1, hb.2⟩ <;>
    (unfold decideLabel; split_ifs with h1 h2 <;> simp_all <;> try linarith)

/-- C2: on every valid input, the image-to-tensor part of `predict` and
`load_image` produce a tensor of shape `[1, 24, 24, 1]` all of whose
values lie in `[0, 1]`. -/
theorem prepare_shape_range :
    (∀ h w px, h ≠ 0 → w ≠ 0 → (∀ ix, px ix ≤ 255) →
      ∃ t, predictPrep ⟨[h, w, 3], px⟩ = .ok t ∧ t.shape = [1, 24, 24, 1] ∧
        ∀ b i j k, 0 ≤ t.px b i j k ∧ t.px b i j k ≤ 1)
  ∧ (∀ h w px, h ≠ 0 → w ≠ 0 → (∀ ix, px ix ≤ 255) →
      ∃ t, load_image (some ⟨[h, w], px⟩) = .ok t ∧ t.shape = [1, 24, 24, 1] ∧
        ∀ b i j k, 0 ≤ t.px b i j k ∧ t.px b i j k ≤ 1)
  ∧ (∀ h w c px, h ≠ 0 → w ≠ 0 → c ≠ 0 → (∀ ix, px ix ≤ 255) →
      ∃ t, load_image (some ⟨[h, w, c], px⟩) = .ok t ∧ t.shape = [1, 24, 24, 1] ∧
        ∀ b i j k, 0 ≤ t.px b i j k ∧ t.px b i j k ≤ 1) := by
  refine ⟨?_, ?_, ?_⟩
  · intro h w px hh hw _
    exact shape_range_predict h w px hh hw
  · intro h w px hh hw hpx
    rw [load_image_eq2]
    exact skResize_range h w 1 _ (by omega)
      (fun i j k => div255_range (px [i, j]) (hpx _))
  · intro h w c px hh hw hc hpx
    rw [load_image_eq3]
    exact skResize_range h w c _ (by omega)
      (fun i j k => div255_range (px [i, j, k]) (hpx _))

/-- Witness for C2: both paths evaluated on small concrete images. -/
theorem prepare_shape_range_witness :
    (∃ t, predictPrep rgbSmall = .ok t ∧ t.shape = [1, 24, 24, 1] ∧
      ∀ b i j k, 0 ≤ t.px b i j k ∧ t.px b i j k ≤ 1)
  ∧ (∃ t, load_image (some graySmall) = .ok t ∧ t.shape = [1, 24, 24, 1] ∧
      ∀ b i j k, 0 ≤ t.px b i j k ∧ t.px b i j k ≤ 1)
  ∧ (∃ t, load_image (some rgbSmall) = .ok t ∧ t.shape = [1, 24, 24, 1] ∧
      ∀ b i j k, 0 ≤ t.px b i j k ∧ t.px b i j k ≤ 1) :=
  ⟨prepare_shape_range.1 2 2 rgbSmall.px (by norm_num) (by norm_num)
      (by intro ix; norm_num [rgbSmall]),
   prepare_shape_range.2.1 3 5 graySmall.px (by norm_num) (by norm_num)
      (by intro ix; norm_num [graySmall]),
   prepare_shape_range.2.2 2 2 3 rgbSmall.px (by norm_num) (by norm_num) (by norm_num)
      (by intro ix; norm_num [rgbSmall])⟩

/-- C3 (counterexample): `load_image` does not perform the steps in the
specified order — on the all-red 24 × 24 image it yields a tensor that
differs from the spec-ordered composition (value 0 against 76/255 at the
first pixel). -/
theorem spec_order_counterexample :
    px0 (load_image (some red24)) = some 0
  ∧ px0 (specPrepare red24) = some (76 / 255)
  ∧ load_image (some red24) ≠ specPrepare red24 := by
  refine ⟨load_red24_px0, ?_, spec_ne_load_red24⟩
  have h := px0_spec_red24
  norm_num at h ⊢
  exact h

/-- C3 (amended): the preprocessing inside `predict` performs the steps
in the specified order (it equals the spec-ordered composition on
3-channel arrays), but `load_image` does not: it divides by 255 before
resizing and collapses channels by interpolation rather than by the luma
transform, so its result differs from the spec-ordered composition on
the all-red 24 × 24 image. -/
theorem prepare_step_order :
    (∀ h w px, predictPrep ⟨[h, w, 3], px⟩ = specPrepare ⟨[h, w, 3], px⟩)
  ∧ px0 (specPrepare red24) = some (76 / 255)
  ∧ px0 (load_image (some red24)) = some 0
  ∧ load_image (some red24) ≠ specPrepare red24 := by
  refine ⟨predictPrep_specOrder, ?_, load_red24_px0, spec_ne_load_red24⟩
  have h := px0_spec_red24
  norm_num at h ⊢
  exact h

/-- C4 (counterexample): the two single-image preprocessing
implementations do not compute the same tensor for every image — they
differ on the all-red 24 × 24 image (76/255 against 0 at the first
pixel). -/
theorem paths_differ_counterexample :
    px0 (predictPrep red24) = some (76 / 255)
  ∧ px0 (load_image (some red24)) = some 0
  ∧ predictPrep red24 ≠ load_image (some red24) := by
  refine ⟨?_, load_red24_px0, pred_ne_load_red24⟩
  rw [predictPrep_red24]
  norm_num [px0]

/-- C4 (amended): each preprocessing path applies the divide-by-255
normalization exactly once — on a constant image of gray value `v` both
paths output the value `v / 255`, not `v / 255²` — but the two
implementations do not compute the same tensor for every image. -/
theorem normalize_once (v : ℕ) (hv : v ≤ 255) :
    predictPrep (constRGB v) =
      .ok { shape := [1, IMG_SIZE, IMG_SIZE, 1], px := fun _ _ _ _ => (v : ℚ) / 255 }
  ∧ (∃ t, load_image (some (constRGB v)) = .ok t ∧
      ∀ i j, i < 24 → j < 24 → t.px 0 i j 0 = (v : ℚ) / 255)
  ∧ ¬(∀ a : NpArray, predictPrep a = load_image (some a)) :=
  ⟨predictPrep_constPx 24 24 v hv (by norm_num) (constRGB v).px (fun r c => lum_diag v),
   load_constPx v,
   fun hAll => pred_ne_load_red24 (hAll red24)⟩

/-- Witness for C4 (amended) at gray value 100. -/
theorem normalize_once_witness :
    predictPrep (constRGB 100) =
      .ok { shape := [1, IMG_SIZE, IMG_SIZE, 1],
            px := fun _ _ _ _ => ((100 : ℕ) : ℚ) / 255 }
  ∧ (∃ t, load_image (some (constRGB 100)) = .ok t ∧
      ∀ i j, i < 24 → j < 24 → t.px 0 i j 0 = ((100 : ℕ) : ℚ) / 255)
  ∧ ¬(∀ a : NpArray, predictPrep a = load_image (some a)) :=
  normalize_once 100 (by norm_num)

/-- C5 (counterexample): single-image preprocessing does not succeed on
every parseable nonzero image of any channel layout — the preprocessing
inside `predict` rejects a 24 × 24 single-channel (grayscale) array with
a shape error. -/
theorem predict_rejects_grayscale :
    gray24.shape = [24, 24] ∧ predictPrep gray24 = .error .badShape :=
  ⟨rfl, rfl⟩

/-- C5 (amended): `load_image` succeeds exactly on decodable rank-2 or
rank-3 arrays with nonzero axes, failing with the decode error on
unparseable input and with the empty-image error on a zero-sized axis;
the preprocessing inside `predict` additionally requires at least 3
channels — `Image.fromarray(img, 'RGB')` fails on nonempty rank-2
(grayscale) arrays and on nonempty rank-3 arrays with fewer than 3
channels ("not enough image data"), and on rank ≥ 4 arrays ("too many
dimensions"), but silently accepts 4-or-more-channel arrays,
reinterpreting their leading bytes as packed RGB. -/
theorem prep_error_classification :
    (load_image none = .error .decodeError)
  ∧ (∀ h w px, h ≠ 0 → w ≠ 0 → ∃ t, load_image (some ⟨[h, w], px⟩) = .ok t)
  ∧ (∀ h w c px, h ≠ 0 → w ≠ 0 → c ≠ 0 →
      ∃ t, load_image (some ⟨[h, w, c], px⟩) = .ok t)
  ∧ (∀ h w px, h = 0 ∨ w = 0 → load_image (some ⟨[h, w], px⟩) = .error .emptyImage)
  ∧ (∀ h w c px, h = 0 ∨ w = 0 ∨ c = 0 →
      load_image (some ⟨[h, w, c], px⟩) = .error .emptyImage)
  ∧ (∀ px, load_image (some ⟨[], px⟩) = .error .decodeError)
  ∧ (∀ x px, load_image (some ⟨[x], px⟩) = .error .decodeError)
  ∧ (∀ h w c d r px, load_image (some ⟨h :: w :: c :: d :: r, px⟩) = .error .decodeError)
  ∧ (∀ h w px, h ≠ 0 → w ≠ 0 → predictPrep ⟨[h, w], px⟩ = .error .badShape)
  ∧ (∀ h w c px, c < 3 → h ≠ 0 → w ≠ 0 →
      predictPrep ⟨[h, w, c], px⟩ = .error .badShape)
  ∧ (∀ h w c d r px, predictPrep ⟨h :: w :: c :: d :: r, px⟩ = .error .badShape)
  ∧ (∀ h w c px, h ≠ 0 → w ≠ 0 → ∃ t, predictPrep ⟨[h, w, c + 4], px⟩ = .ok t)
  ∧ (∀ h w px, h ≠ 0 → w ≠ 0 → ∃ t, predictPrep ⟨[h, w, 3], px⟩ = .ok t) := by
  refine ⟨rfl, ?_, ?_, ?_, ?_, fun px => rfl, fun x px => rfl,
    fun h w c d r px => rfl, ?_, ?_, predictPrep_eq4, ?_, ?_⟩
  · intro h w px hh hw
    rw [load_image_eq2]
    unfold skResize
    rw [if_neg (by omega)]
    exact ⟨_, rfl⟩
  · intro h w c px hh hw hc
    rw [load_image_eq3]
    unfold skResize
    rw [if_neg (by omega)]
    exact ⟨_, rfl⟩
  · intro h w px hz
    rw [load_image_eq2]
    unfold skResize
    rw [if_pos (by omega)]
  · intro h w c px hz
    rw [load_image_eq3]
    unfold skResize
    rw [if_pos (by omega)]
  · intro h w px hh hw
    rw [predictPrep_eq2, if_neg (by omega)]
  · intro h w c px hc hh hw
    rw [predictPrep_lowc h w c hc, if_neg (by omega)]
  · intro h w c px hh hw
    rw [predictPrep_eqc4, if_neg (by omega)]
    exact ⟨_, rfl⟩
  · intro h w px hh hw
    obtain ⟨t, ht, _⟩ := shape_range_predict h w px hh hw
    exact ⟨t, ht⟩

/-- Witness for C5 on concrete arrays of each kind. -/
theorem prep_error_classification_witness :
    (∃ t, load_image (some graySmall) = .ok t)
  ∧ (∃ t, load_image (some rgbSmall) = .ok t)
  ∧ load_image (some (⟨[0, 4], fun _ => 0⟩ : NpArray)) = .error .emptyImage
  ∧ load_image (some (⟨[4, 4, 0], fun _ => 0⟩ : NpArray)) = .error .emptyImage
  ∧ predictPrep graySmall = .error .badShape
  ∧ predictPrep (⟨[4, 4, 2], fun _ => 0⟩ : NpArray) = .error .badShape
  ∧ (∃ t, predictPrep (⟨[2, 2, 6], fun _ => 7⟩ : NpArray) = .ok t)
  ∧ (∃ t, predictPrep rgbSmall = .ok t) :=
  ⟨prep_error_classification.2.1 3 5 graySmall.px (by norm_num) (by norm_num),
   prep_error_classification.2.2.1 2 2 3 rgbSmall.px (by norm_num) (by norm_num)
     (by norm_num),
   prep_error_classification.2.2.2.1 0 4 _ (by norm_num),
   prep_error_classification.2.2.2.2.1 4 4 0 _ (by norm_num),
   prep_error_classification.2.2.2.2.2.2.2.2.1 3 5 graySmall.px (by norm_num)
     (by norm_num),
   prep_error_classification.2.2.2.2.2.2.2.2.2.1 4 4 2 (fun _ => 0) (by norm_num)
     (by norm_num) (by norm_num),
   prep_error_classification.2.2.2.2.2.2.2.2.2.2.2.1 2 2 2 (fun _ => 7) (by norm_num)
     (by norm_num),
   prep_error_classification.2.2.2.2.2.2.2.2.2.2.2.2 2 2 rgbSmall.px (by norm_num)
     (by norm_num)⟩

/-- C6: both streams built by `load_data` are configured with batch size
32, rescaling by 1/255 (which maps uint8 samples into `[0, 1]`), a random
shear whose sampled intensity is bounded by 0.2, horizontal flipping,
resizing to 24 × 24, forced grayscale and binary labels; a two-class
directory always yields labels 0 or 1. -/
theorem loader_batch_augmentation :
    (∀ r : ℚ, 0 ≤ r → r ≤ 1 → |sampleShear load_data.1.gen r| ≤ 0.2)
  ∧ (∀ v : ℕ, v ≤ 255 →
      0 ≤ rescaleApply load_data.1.gen v ∧ rescaleApply load_data.1.gen v ≤ 1)
  ∧ (∀ classes c, classes.length = 2 → c ∈ classes → binaryLabel classes c < 2)
  ∧ load_data.1.batch_size = 32 ∧ load_data.2.batch_size = 32
  ∧ load_data.1.gen.rescale = some (1/255) ∧ load_data.2.gen.rescale = some (1/255)
  ∧ load_data.1.gen.shear_range = 0.2 ∧ load_data.2.gen.shear_range = 0.2
  ∧ load_data.1.gen.horizontal_flip = true ∧ load_data.2.gen.horizontal_flip = true
  ∧ load_data.1.target_size = (24, 24) ∧ load_data.2.target_size = (24, 24)
  ∧ load_data.1.color_mode = ColorMode.grayscale
  ∧ load_data.2.color_mode = ColorMode.grayscale
  ∧ load_data.1.class_mode = ClassMode.binary
  ∧ load_data.2.class_mode = ClassMode.binary :=
  ⟨sampleShear_bound, rescaleApply_range, binaryLabel_lt_two,
   rfl, rfl, rfl, rfl, rfl, rfl, rfl, rfl, rfl, rfl, rfl, rfl, rfl, rfl⟩

/-- Witness for C6: the sampled shear at a concrete draw, the rescale of
a concrete sample, and the label of a concrete two-class directory. -/
theorem loader_batch_augmentation_witness :
    |sampleShear load_data.1.gen (1/2)| ≤ 0.2
  ∧ (0 ≤ rescaleApply load_data.1.gen 128 ∧ rescaleApply load_data.1.gen 128 ≤ 1)
  ∧ binaryLabel ["closed", "open"] "open" < 2 :=
  ⟨loader_batch_augmentation.1 (1/2) (by norm_num) (by norm_num),
   loader_batch_augmentation.2.1 128 (by norm_num),
   loader_batch_augmentation.2.2.1 ["closed", "open"] "open" rfl (by simp)⟩

/-- C7: dataset loading is deterministic under the fixed seed 42 — the
per-epoch sample order and every batch of either stream returned by
`load_data` are independent of the ambient random state, so two runs
produce identical streams for the same directory contents. -/
theorem loader_seed_determinism (α : Type) (g₁ g₂ : ℕ) (files : List α)
    (epoch b : ℕ) :
    (epochFiles load_data.1 g₁ files epoch = epochFiles load_data.1 g₂ files epoch)
  ∧ (epochFiles load_data.2 g₁ files epoch = epochFiles load_data.2 g₂ files epoch)
  ∧ (streamBatch load_data.1 g₁ files epoch b = streamBatch load_data.1 g₂ files epoch b)
  ∧ (streamBatch load_data.2 g₁ files epoch b = streamBatch load_data.2 g₂ files epoch b) :=
  ⟨rfl, rfl, rfl, rfl⟩

/-- C8: model persistence round-trips — loading the two artifacts written
by `save_model` reproduces the model exactly, hence the same prediction
on every input tensor. -/
theorem model_persistence_roundtrip (m : KModel) (hm : wfModel m) :
    ∃ m2, load_model (save_model m) = .ok m2 ∧ m2 = m ∧
      ∀ t, predictProb m2 t = predictProb m t :=
  ⟨m, model_roundtrip_aux m hm, rfl, fun _ => rfl⟩

/-- Witness for C8 on a concrete two-layer model. -/
theorem model_persistence_roundtrip_witness :
    wfModel mEx ∧ ∃ m2, load_model (save_model mEx) = .ok m2 ∧ m2 = mEx ∧
      ∀ t, predictProb m2 t = predictProb mEx t :=
  ⟨by rfl, model_persistence_roundtrip mEx (by rfl)⟩

/-- C9: `load_model` fails with the corrupt-artifact error exactly when
an artifact is missing, does not decode, or has weights whose length
does not match the declared structure; in particular a shape-mismatched
weights file is rejected rather than producing a model. -/
theorem load_model_error_classification :
    (∀ ar : Artifacts, (∃ m, load_model ar = .ok m) ↔ wfArtifacts ar)
  ∧ (∀ ar : Artifacts, ¬ wfArtifacts ar → load_model ar = .error .corruptArtifact)
  ∧ (∀ (arch : List ℕ) (w : List ℚ), w.length ≠ totalParams arch →
      load_model ⟨some (to_json arch), some w⟩ = .error .corruptArtifact)
  ∧ load_model ⟨none, none⟩ = .error .corruptArtifact := by
  refine ⟨load_model_ok_iff, load_model_fails, ?_, rfl⟩
  intro arch w hne
  simp [load_model, to_json, model_from_json, hne]

/-- Witness for C9: a weights file of the wrong length and a missing
pair of artifacts are both rejected. -/
theorem load_model_error_classification_witness :
    load_model ⟨some (to_json [2, 1]), some ([1, 2] : List ℚ)⟩ =
      .error .corruptArtifact
  ∧ load_model ⟨none, none⟩ = .error .corruptArtifact :=
  ⟨load_model_error_classification.2.2.1 [2, 1] [1, 2] (by decide),
   load_model_error_classification.2.1 ⟨none, none⟩ (by simp [wfArtifacts])⟩

/-- C10: the validation stream built by `load_data` has exactly the same
configuration as the training stream — identical generator (rescale
1/255, shear range 0.2, horizontal flip), identical shuffle setting and
seed 42 — differing only in its source directory. -/
theorem val_stream_config_matches_train :
    load_data.2 = { load_data.1 with directory := "dataset/val" }
  ∧ load_data.1.directory = "dataset/train"
  ∧ load_data.2.directory = "dataset/val"
  ∧ load_data.1.gen = load_data.2.gen
  ∧ load_data.1.gen.rescale = some (1/255)
  ∧ load_data.1.gen.shear_range = 0.2
  ∧ load_data.1.gen.horizontal_flip = true
  ∧ load_data.1.shuffle = true ∧ load_data.2.shuffle = true
  ∧ load_data.1.seed = some 42 ∧ load_data.2.seed = some 42 :=
  ⟨rfl, rfl, rfl, rfl, rfl, rfl, rfl, rfl, rfl, rfl, rfl⟩

end FaceRec
